import Mathlib

/-!
Shallow embedding of the authorization/token-verification subsystem of the
auth-poc repository (backend/src/services/authorization-service.ts,
backend/src/services/auth-service.ts, backend/src/middleware/auth.ts,
backend/src/utils/environment.ts, backend/src/handlers/authorizer.ts).

Modelling conventions, matching the JavaScript runtime semantics rather than
the TypeScript annotations:

* A JS value that may be `undefined` is an `Option`.
* JS truthiness on strings: `undefined` and `""` are falsy.
* A decoded JSON token payload is a `TokenPayload` with every claim optional,
  since `JSON.parse` places no constraint on which fields are present.
* The external serialization layer (`Buffer` base64 and `JSON`
  stringify/parse) is modelled at the payload level: a raw bearer string is
  represented by its observable shape — `RawCredential.compat p?` for a
  string starting with the literal prefix `google.` whose suffix
  base64+JSON-decodes to `p?` (`none` when `JSON.parse` throws), and
  `RawCredential.plain s` for any other string.  The code only ever inspects
  the prefix and the decoded payload, so this quotient preserves all
  behaviour the subsystem observes.
* An `Authorization` header value is represented by its split on single
  spaces (the code calls `header.split(' ')`), each segment abstracted to its
  credential shape; the empty JS string corresponds to `[.plain ""]`.
* The identity-provider SDK verifiers (`CognitoJwtVerifier.verify`,
  `OAuth2Client.verifyIdToken`) are external collaborators, modelled as
  arbitrary functions returning `Option TokenPayload` (`none` = the SDK threw
  or produced no payload); theorems quantify over them.
* Thrown JS exceptions become `Except` errors; `JsError` distinguishes the
  repository's `AuthorizationError` from any other runtime exception.
-/

namespace AuthPoc

/-- JS truthiness of a possibly-undefined string: `undefined` and `""` are falsy. -/
def truthyStr : Option String → Bool
  | none => false
  | some s => s != ""

/-- JS `a || b` on possibly-undefined strings. -/
def jsOrStr (a b : Option String) : Option String :=
  if truthyStr a then a else b

/-- JS `String(x)` applied to a possibly-undefined string. -/
def jsString : Option String → String
  | none => "undefined"
  | some s => s

/-- JS `String(b)` applied to a boolean. -/
def boolStr (b : Bool) : String :=
  if b then "true" else "false"

/-- The repository's `AuthorizationError` class (message plus HTTP status code,
defaulting to 401). -/
structure AuthorizationError where
  message : String
  statusCode : Nat := 401
deriving Repr, DecidableEq

/-- A thrown JS exception: either the repository's `AuthorizationError` or any
other runtime error (`TypeError`, `SyntaxError` from `JSON.parse`, ...). -/
inductive JsError where
  | authorization (err : AuthorizationError)
  | other (msg : String)
deriving Repr, DecidableEq

/-- A decoded JSON token payload.  Every claim is optional: at runtime the
payload is whatever object `JSON.parse` (or the SDK) produced, regardless of
the TypeScript interfaces `DecodedToken` / `GoogleTokenPayload`.
`cognitoUsername` models the `cognito:username` claim. -/
structure TokenPayload where
  sub : Option String := none
  email : Option String := none
  email_verified : Option Bool := none
  cognitoUsername : Option String := none
  token_use : Option String := none
  name : Option String := none
  given_name : Option String := none
  family_name : Option String := none
  picture : Option String := none
  aud : Option String := none
  iss : Option String := none
  iat : Option Int := none
  exp : Option Int := none
deriving Repr, DecidableEq

/-- A raw bearer string, by its observable shape: `compat p?` is a string
starting with the literal prefix `google.` whose base64+JSON suffix decodes to
`p?` (`none` when decoding throws); `plain s` is any other string. -/
inductive RawCredential where
  | compat (payload : Option TokenPayload)
  | plain (raw : String)
deriving Repr, DecidableEq

/-- An `Authorization` header (or cookie) string value, represented by its
split on single spaces; the empty JS string is `[.plain ""]`. -/
abbrev HeaderVal := List RawCredential

/-- JS truthiness of a possibly-undefined header string: falsy iff
`undefined` or the empty string. -/
def hvTruthyO : Option HeaderVal → Bool
  | none => false
  | some h => !(h == [RawCredential.plain ""])

/-- JS `a || b` on possibly-undefined header strings. -/
def jsOrHV (a b : Option HeaderVal) : Option HeaderVal :=
  if hvTruthyO a then a else b

/-- The relevant slice of `getConfig()`: `config.google.clientId`
(a required environment variable, hence a string). -/
structure Config where
  googleClientId : String
deriving Repr, DecidableEq

/-- External SDK collaborator behaviour: `cognitoVerify` models
`CognitoJwtVerifier.verify` and `googleIdVerify` models
`OAuth2Client.verifyIdToken`+`getPayload` (with the configured audience and
signing keys); `none` means the call threw or yielded no payload. -/
structure Collaborators where
  cognitoVerify : RawCredential → Option TokenPayload
  googleIdVerify : RawCredential → Option TokenPayload

/-! ### AuthorizationService: token extraction and verification -/

/-- `AuthorizationService.extractTokenFromHeader`: throws on a falsy header,
then requires the split on spaces to be exactly `["Bearer", token]`. -/
def extractTokenFromHeader (header : Option HeaderVal) :
    Except AuthorizationError RawCredential :=
  if !hvTruthyO header then
    .error ⟨"Missing Authorization header", 401⟩
  else
    match header with
    | some [p0, p1] =>
      if p0 == RawCredential.plain "Bearer" then .ok p1
      else .error ⟨"Invalid Authorization header format", 401⟩
    | _ => .error ⟨"Invalid Authorization header format", 401⟩

/-- `AuthorizationService.verifyCognitoToken`: the SDK call, with the
surrounding try/catch that converts any failure into
`AuthorizationError "Invalid Cognito token"`. -/
def verifyCognitoToken (C : Collaborators) (tok : RawCredential) :
    Except AuthorizationError TokenPayload :=
  match C.cognitoVerify tok with
  | some p => .ok p
  | none => .error ⟨"Invalid Cognito token", 401⟩

/-- The JS guard `payload.exp && payload.exp < now` of
`verifyCustomGoogleToken` (JS truthiness: an absent or zero `exp` is falsy
and skips the comparison). -/
def expiredGuard (exp : Option Int) (now : Int) : Bool :=
  match exp with
  | some e => e != 0 && decide (e < now)
  | none => false

/-- The validation sequence of `verifyCustomGoogleToken` on a decoded
payload: the expiry guard, then `payload.aud !== config.google.clientId`. -/
def compatCheck (cfg : Config) (now : Int) (payload : TokenPayload) :
    Except JsError TokenPayload :=
  if expiredGuard payload.exp now then
    .error (.authorization ⟨"Token has expired", 401⟩)
  else if !(payload.aud == some cfg.googleClientId) then
    .error (.authorization ⟨"Invalid token audience", 401⟩)
  else
    .ok payload

/-- The try-block of `AuthorizationService.verifyCustomGoogleToken`: decode
the base64 JSON suffix (a `plain` credential or a failed decode raises the
`JSON.parse` exception), then run the expiry and audience checks. -/
def verifyCustomGoogleTokenTry (cfg : Config) (now : Int) (tok : RawCredential) :
    Except JsError TokenPayload :=
  match tok with
  | RawCredential.plain _ =>
    .error (.other "SyntaxError: Unexpected token in JSON")
  | RawCredential.compat none =>
    .error (.other "SyntaxError: Unexpected token in JSON")
  | RawCredential.compat (some payload) =>
    compatCheck cfg now payload

/-- `AuthorizationService.verifyCustomGoogleToken`: the try-block wrapped by
the catch-all that rethrows every failure as
`AuthorizationError "Invalid custom Google token"`. -/
def verifyCustomGoogleToken (cfg : Config) (now : Int) (tok : RawCredential) :
    Except AuthorizationError TokenPayload :=
  match verifyCustomGoogleTokenTry cfg now tok with
  | .ok p => .ok p
  | .error _ => .error ⟨"Invalid custom Google token", 401⟩

/-- `AuthorizationService.verifyGoogleToken`: a credential with the `google.`
prefix routes to the compatibility path, anything else to the SDK ID-token
verification; the surrounding try/catch converts any failure into
`AuthorizationError "Invalid Google token"`. -/
def verifyGoogleToken (cfg : Config) (C : Collaborators) (now : Int)
    (tok : RawCredential) : Except AuthorizationError TokenPayload :=
  match tok with
  | RawCredential.compat _ =>
    match verifyCustomGoogleToken cfg now tok with
    | .ok p => .ok p
    | .error _ => .error ⟨"Invalid Google token", 401⟩
  | RawCredential.plain _ =>
    match C.googleIdVerify tok with
    | some p => .ok p
    | none => .error ⟨"Invalid Google token", 401⟩

/-- Result of `AuthorizationService.verifyToken`. -/
structure VerifyResult where
  userInfo : TokenPayload
  tokenType : String
deriving Repr, DecidableEq

/-- `AuthorizationService.verifyToken`: try Cognito first, then Google; if
both fail, throw `AuthorizationError "Invalid token"`. -/
def verifyToken (cfg : Config) (C : Collaborators) (now : Int)
    (tok : RawCredential) : Except AuthorizationError VerifyResult :=
  match verifyCognitoToken C tok with
  | .ok p => .ok ⟨p, "cognito"⟩
  | .error _ =>
    match verifyGoogleToken cfg C now tok with
    | .ok p => .ok ⟨p, "google"⟩
    | .error _ => .error ⟨"Invalid token", 401⟩

/-! ### AuthorizationService: context building -/

/-- The runtime shape of `AuthContext`: fields typed `string` in TypeScript
can be `undefined` at runtime (the payload is unvalidated JSON), so they are
options here. -/
structure AuthContext where
  userId : Option String := none
  email : Option String := none
  tokenType : Option String := none
  emailVerified : Bool := false
  username : Option String := none
  tokenUse : Option String := none
  name : Option String := none
  givenName : Option String := none
  familyName : Option String := none
  picture : Option String := none
deriving Repr, DecidableEq

/-- `AuthorizationService.createAuthContext`: copies `sub`/`email` from the
claims with no presence check, defaults `email_verified` with `|| false`,
then adds the per-origin fields (`|| ''` defaults on the Google branch,
`cognito:username || sub` and `token_use || ''` on the Cognito branch). -/
def createAuthContext (userInfo : TokenPayload) (tokenType : String) : AuthContext :=
  let base : AuthContext :=
    { userId := userInfo.sub
      email := userInfo.email
      tokenType := some tokenType
      emailVerified := userInfo.email_verified.getD false }
  if tokenType = "cognito" then
    { base with
        username := jsOrStr userInfo.cognitoUsername userInfo.sub
        tokenUse := some (userInfo.token_use.getD "") }
  else
    { base with
        name := some (userInfo.name.getD "")
        givenName := some (userInfo.given_name.getD "")
        familyName := some (userInfo.family_name.getD "")
        picture := some (userInfo.picture.getD "") }

/-- Lookup in a string-keyed header map (`headers[k]`). -/
def hget (h : List (String × String)) (k : String) : Option String :=
  (h.find? (fun kv => kv.fst == k)).map (fun kv => kv.snd)

/-- `AuthorizationService.createAuthContextFromHeaders`: returns `null` unless
`x-auth-user-id`, `x-auth-email` and `x-auth-token-type` are all truthy, then
builds the context with the per-origin fields. -/
def createAuthContextFromHeaders (headers : List (String × String)) :
    Option AuthContext :=
  let userId := hget headers "x-auth-user-id"
  let email := hget headers "x-auth-email"
  let tokenType := hget headers "x-auth-token-type"
  let emailVerified := hget headers "x-auth-email-verified" == some "true"
  if !truthyStr userId || !truthyStr email || !truthyStr tokenType then
    none
  else
    let base : AuthContext := { userId, email, tokenType, emailVerified }
    if tokenType == some "cognito" then
      some { base with
              username := jsOrStr (hget headers "x-auth-username") userId
              tokenUse := some ((hget headers "x-auth-token-use").getD "") }
    else
      some { base with
              name := some ((hget headers "x-auth-name").getD "")
              givenName := some ((hget headers "x-auth-given-name").getD "")
              familyName := some ((hget headers "x-auth-family-name").getD "")
              picture := some ((hget headers "x-auth-picture").getD "") }

/-- `AuthorizationService.authorizeRequest`: extract the bearer token from the
header, verify it, and build the context; the catch rethrows the same error. -/
def authorizeRequest (cfg : Config) (C : Collaborators) (now : Int)
    (header : Option HeaderVal) : Except AuthorizationError AuthContext :=
  match extractTokenFromHeader header with
  | .error e => .error e
  | .ok tok =>
    match verifyToken cfg C now tok with
    | .error e => .error e
    | .ok r => .ok (createAuthContext r.userInfo r.tokenType)

/-! ### Environment detection (backend/src/utils/environment.ts) -/

/-- The flat string map attached by the upstream Lambda authorizer
(`event.requestContext.authorizer`); every value may be absent. -/
structure AuthorizerOutput where
  userId : Option String := none
  username : Option String := none
  email : Option String := none
  tokenType : Option String := none
  emailVerified : Option String := none
  tokenUse : Option String := none
  name : Option String := none
  givenName : Option String := none
  familyName : Option String := none
  picture : Option String := none
deriving Repr, DecidableEq

/-- `event.requestContext`, carrying the optional authorizer output. -/
structure RequestContext where
  authorizer : Option AuthorizerOutput := none
deriving Repr, DecidableEq

/-- A managed-platform (Lambda) event envelope. -/
structure LambdaEvent where
  requestContext : Option RequestContext := none
deriving Repr, DecidableEq

/-- The process environment markers consulted by `isAWSEnvironment`
(values are JS strings, empty = falsy). -/
structure ProcEnv where
  awsLambdaFunctionName : Option String := none
  awsExecutionEnv : Option String := none
  awsRegion : Option String := none
  awsLambdaRuntimeApi : Option String := none
deriving Repr, DecidableEq

/-- `EnvironmentDetector.isAWSEnvironment`: event request-context first, then
`AWS_LAMBDA_FUNCTION_NAME || AWS_EXECUTION_ENV`, then
`AWS_REGION && AWS_LAMBDA_RUNTIME_API`. -/
def isAWSEnvironment (penv : ProcEnv) (event : Option LambdaEvent) : Bool :=
  (match event with
   | some e => e.requestContext.isSome
   | none => false)
  || truthyStr penv.awsLambdaFunctionName
  || truthyStr penv.awsExecutionEnv
  || (truthyStr penv.awsRegion && truthyStr penv.awsLambdaRuntimeApi)

/-- The part of `AWSEventContext` the middleware reads. -/
structure AWSEventContext where
  hasAuthorizer : Bool
  authorizer : Option AuthorizerOutput
deriving Repr, DecidableEq

/-- `EnvironmentDetector.extractAWSEventContext`: `null` outside AWS;
otherwise reads `event.requestContext` (a raw member access that throws a
`TypeError` when the event itself is `null`, which can happen when the
environment markers fire with no event in hand) and
`event.requestContext?.authorizer`. -/
def extractAWSEventContext (penv : ProcEnv) (event : Option LambdaEvent) :
    Except JsError (Option AWSEventContext) :=
  if !isAWSEnvironment penv event then
    .ok none
  else
    match event with
    | none => .error (.other "TypeError: Cannot read properties of null")
    | some e =>
      let auth := e.requestContext.bind (fun rc => rc.authorizer)
      .ok (some { hasAuthorizer := auth.isSome, authorizer := auth })

/-- First candidate event that is truthy and classifies as AWS
(the loop body of `extractLambdaEvent`). -/
def pickAwsEvent (penv : ProcEnv) : List (Option LambdaEvent) → Option LambdaEvent
  | [] => none
  | none :: rest => pickAwsEvent penv rest
  | some e :: rest =>
    if isAWSEnvironment penv (some e) then some e else pickAwsEvent penv rest

/-! ### Request authorization middleware (backend/src/middleware/auth.ts) -/

/-- The header fields the middleware reads: the two spellings of the
`Authorization` header (as split header strings) and the `x-auth-*` trusted
header map consumed by `createAuthContextFromHeaders`. -/
structure ReqHeaders where
  authorization : Option HeaderVal := none
  authorizationCap : Option HeaderVal := none
  xauth : List (String × String) := []
deriving Repr, DecidableEq

/-- `request.cookies`: the `access_token` cookie value (a split string). -/
structure Cookies where
  accessToken : Option HeaderVal := none
deriving Repr, DecidableEq

/-- The slice of the Fastify request the middleware reads, plus the candidate
event slots probed by `extractLambdaEvent`. -/
structure FastifyRequest where
  awsLambdaEvent : Option LambdaEvent := none
  event : Option LambdaEvent := none
  lambdaEvent : Option LambdaEvent := none
  headers : ReqHeaders := {}
  cookies : Cookies := {}
deriving Repr, DecidableEq

/-- `EnvironmentDetector.extractLambdaEvent`: probes, in order, the global
event slot, `request.awsLambda?.event`, `request.event`,
`request.lambdaEvent`, returning the first truthy AWS-classified one. -/
def extractLambdaEvent (penv : ProcEnv) (req : FastifyRequest)
    (globalEvent : Option LambdaEvent) : Option LambdaEvent :=
  pickAwsEvent penv [globalEvent, req.awsLambdaEvent, req.event, req.lambdaEvent]

/-- The authorizer-output branch of the middleware: the object literal built
from `requestContext.authorizer` with `userId || username`,
`emailVerified === 'true'`, and the conditionally spread per-origin fields. -/
def authContextFromAuthorizer (a : AuthorizerOutput) : AuthContext :=
  { userId := jsOrStr a.userId a.username
    email := a.email
    tokenType := a.tokenType
    emailVerified := a.emailVerified == some "true"
    username := if a.tokenType == some "cognito" then a.username else none
    tokenUse := if a.tokenType == some "cognito" then a.tokenUse else none
    name := if a.tokenType == some "google" then a.name else none
    givenName := if a.tokenType == some "google" then a.givenName else none
    familyName := if a.tokenType == some "google" then a.familyName else none
    picture := if a.tokenType == some "google" then a.picture else none }

/-- The `preHandler` hook registered by `registerAuth`: the value it assigns
to `request.authContext` (`.ok`), or the exception it lets escape (`.error`).
AWS branch: authorizer output first, then the trusted-header fallback.
Local branch: `Authorization` header first (failures swallowed to `null`),
then the `access_token` cookie wrapped as `Bearer <value>` (failures
swallowed to `null`). -/
def authMiddleware (cfg : Config) (C : Collaborators) (penv : ProcEnv)
    (now : Int) (globalEvent : Option LambdaEvent) (req : FastifyRequest) :
    Except JsError (Option AuthContext) :=
  let event := extractLambdaEvent penv req globalEvent
  match extractAWSEventContext penv event with
  | .error e => .error e
  | .ok (some awsContext) =>
    let fromAuthorizer : Option AuthContext :=
      if awsContext.hasAuthorizer then
        awsContext.authorizer.map authContextFromAuthorizer
      else none
    match fromAuthorizer with
    | some ctx => .ok (some ctx)
    | none => .ok (createAuthContextFromHeaders req.headers.xauth)
  | .ok none =>
    let authHeader := jsOrHV req.headers.authorization req.headers.authorizationCap
    let viaHeader : Option AuthContext :=
      if hvTruthyO authHeader then
        match authorizeRequest cfg C now authHeader with
        | .ok ctx => some ctx
        | .error _ => none
      else none
    match viaHeader with
    | some ctx => .ok (some ctx)
    | none =>
      match req.cookies.accessToken with
      | some v =>
        if !(v == [RawCredential.plain ""]) then
          match authorizeRequest cfg C now (some (RawCredential.plain "Bearer" :: v)) with
          | .ok ctx => .ok (some ctx)
          | .error _ => .ok none
        else .ok none
      | none => .ok none

/-! ### Lambda authorizer handler (backend/src/handlers/authorizer.ts) -/

/-- A single IAM policy statement produced by `generatePolicy`. -/
structure PolicyStatement where
  action : String
  effect : String
  resource : String
deriving Repr, DecidableEq

/-- The policy document produced by `generatePolicy`. -/
structure PolicyDocument where
  version : String
  statement : List PolicyStatement
deriving Repr, DecidableEq

/-- `APIGatewayAuthorizerResult` as the handler builds it; the principal can
be `undefined` at runtime when the context's `userId` is. -/
structure APIGatewayAuthorizerResult where
  principalId : Option String
  policyDocument : PolicyDocument
  context : List (String × String)
deriving Repr, DecidableEq

/-- `generatePolicy` from the handler module (`context || {}`). -/
def generatePolicy (principalId : Option String) (effect : String)
    (resource : String) (context : Option (List (String × String))) :
    APIGatewayAuthorizerResult :=
  { principalId
    policyDocument :=
      { version := "2012-10-17"
        statement := [{ action := "execute-api:Invoke", effect, resource }] }
    context := context.getD [] }

/-- The `stringAuthContext` object literal of the handler: every field coerced
with JS `String(...)` (so an `undefined` string becomes `"undefined"`), with
the conditionally spread per-origin fields and their `|| ''` defaults. -/
def stringAuthContext (a : AuthContext) : List (String × String) :=
  [("userId", jsString a.userId),
   ("email", jsString a.email),
   ("tokenType", jsString a.tokenType),
   ("emailVerified", boolStr a.emailVerified)]
  ++ (if a.tokenType == some "cognito" then
        [("username", jsString (jsOrStr a.username a.userId)),
         ("tokenUse", a.tokenUse.getD "")]
      else [])
  ++ (if a.tokenType == some "google" then
        [("name", a.name.getD ""),
         ("givenName", a.givenName.getD ""),
         ("familyName", a.familyName.getD ""),
         ("picture", a.picture.getD "")]
      else [])

/-- The authorizer Lambda event fields the handler reads. -/
structure AuthorizerEvent where
  authorizationToken : Option HeaderVal := none
  methodArn : String := ""
deriving Repr, DecidableEq

/-- The try/catch body of the authorizer `handler`, over the outcome of
`authorizeRequest`: success yields an Allow policy carrying the stringified
context; a recognized `AuthorizationError` and any other exception both yield
a Deny policy for principal `"user"`. -/
def handlerCatch (outcome : Except JsError AuthContext) (methodArn : String) :
    APIGatewayAuthorizerResult :=
  match outcome with
  | .ok authContext =>
    generatePolicy authContext.userId "Allow" methodArn
      (some (stringAuthContext authContext))
  | .error (JsError.authorization _) =>
    generatePolicy (some "user") "Deny" methodArn none
  | .error (JsError.other _) =>
    generatePolicy (some "user") "Deny" methodArn none

/-- The authorizer `handler`: `authorizeRequest` on `event.authorizationToken`
inside the try/catch. -/
def handler (cfg : Config) (C : Collaborators) (now : Int)
    (event : AuthorizerEvent) : APIGatewayAuthorizerResult :=
  handlerCatch
    (match authorizeRequest cfg C now event.authorizationToken with
     | .ok ctx => .ok ctx
     | .error e => .error (JsError.authorization e))
    event.methodArn

/-! ### AuthService: federated compatibility tokens
(backend/src/services/auth-service.ts) -/

/-- The claims map `createFederatedTokens` receives (the Google profile spread
together with the Cognito `userId`); each field may be absent at runtime. -/
structure GoogleUser where
  userId : Option String := none
  email : Option String := none
  email_verified : Option Bool := none
  name : Option String := none
  given_name : Option String := none
  family_name : Option String := none
  picture : Option String := none
deriving Repr, DecidableEq

/-- `process.env` as read by `AuthService.createFederatedTokens`
(`GOOGLE_CLIENT_ID` may be unset). -/
structure AuthServiceEnv where
  googleClientId : Option String := none
deriving Repr, DecidableEq

/-- `CognitoAuthResult` as produced by `createFederatedTokens`. -/
structure CognitoAuthResult where
  accessToken : RawCredential
  idToken : RawCredential
  refreshToken : String
  expiresIn : Int
  tokenType : String
deriving Repr, DecidableEq

/-- The `basePayload` object literal of `createFederatedTokens`:
`sub := userId`, profile fields copied, `aud := GOOGLE_CLIENT_ID`,
`iss` fixed, `iat := now`, `exp := now + 3600`. -/
def federatedBasePayload (saEnv : AuthServiceEnv) (now : Int) (gu : GoogleUser) :
    TokenPayload :=
  { sub := gu.userId
    email := gu.email
    email_verified := gu.email_verified
    name := gu.name
    given_name := gu.given_name
    family_name := gu.family_name
    picture := gu.picture
    aud := saEnv.googleClientId
    iss := some "https://accounts.google.com"
    iat := some now
    exp := some (now + 3600) }

/-- `AuthService.createFederatedTokens`: serializes `basePayload` (JSON then
base64) behind the `google.` prefix — in this embedding, the `compat`
credential carrying the payload — and returns it as both access and ID token
with a one-hour `expiresIn`. -/
def createFederatedTokens (saEnv : AuthServiceEnv) (now : Int) (gu : GoogleUser) :
    CognitoAuthResult :=
  let customToken := RawCredential.compat (some (federatedBasePayload saEnv now gu))
  { accessToken := customToken
    idToken := customToken
    refreshToken := ""
    expiresIn := 3600
    tokenType := "Bearer" }

/-! ### Sample values used by concrete witnesses -/

/-- A sample upstream authorizer output with the minimum populated fields. -/
def sampleAuthorizer : AuthorizerOutput :=
  { userId := some "user-1", email := some "u@example.com",
    tokenType := some "google" }

/-- A managed-platform event carrying `sampleAuthorizer`. -/
def sampleAwsEvent : LambdaEvent :=
  { requestContext := some { authorizer := some sampleAuthorizer } }

/-- A managed-platform event with a request context but no authorizer. -/
def sampleAwsEventNoAuth : LambdaEvent :=
  { requestContext := some {} }

/-- A sample decoded claims payload with subject and email. -/
def samplePayload : TokenPayload :=
  { sub := some "user-1", email := some "u@example.com" }

/-- Collaborators that reject every credential. -/
def rejectAll : Collaborators := ⟨fun _ => none, fun _ => none⟩

/-- Collaborators whose Cognito verifier accepts everything as
`samplePayload`. -/
def cognitoAccepts : Collaborators := ⟨fun _ => some samplePayload, fun _ => none⟩

/-- The split header value `Authorization: Bearer tok`. -/
def sampleBearerHeader : HeaderVal :=
  [RawCredential.plain "Bearer", RawCredential.plain "tok"]

/-- A standalone request carrying `Authorization: Bearer tok`. -/
def sampleBearerRequest : FastifyRequest :=
  { headers := { authorization := some sampleBearerHeader } }

/-! ### Helper lemmas -/

/-- Any payload accepted by the compatibility-path validation sequence is the
decoded payload itself and carries the configured client id as audience. -/
theorem compatCheck_ok {cfg : Config} {now : Int}
    {p q : TokenPayload} (h : compatCheck cfg now p = .ok q) :
    q = p ∧ q.aud = some cfg.googleClientId := by
  unfold compatCheck at h
  split at h
  · exact absurd h (by simp)
  · split at h
    · exact absurd h (by simp)
    · rename_i hbeq
      cases h
      refine ⟨rfl, ?_⟩
      simpa using hbeq

/-- Any payload accepted by the compatibility-token try-block carries the
configured client id as its audience. -/
theorem verifyCustomGoogleTokenTry_ok_aud {cfg : Config} {now : Int}
    {tok : RawCredential} {q : TokenPayload}
    (h : verifyCustomGoogleTokenTry cfg now tok = .ok q) :
    q.aud = some cfg.googleClientId := by
  unfold verifyCustomGoogleTokenTry at h
  match tok with
  | RawCredential.plain _ => exact absurd h (by simp)
  | RawCredential.compat none => exact absurd h (by simp)
  | RawCredential.compat (some payload) => exact (compatCheck_ok h).2

/-- On a decodable compatibility credential, `verifyCustomGoogleToken` is the
validation sequence with every failure rewrapped into the generic error. -/
theorem verifyCustomGoogleToken_compat_some (cfg : Config) (now : Int)
    (p : TokenPayload) :
    verifyCustomGoogleToken cfg now (RawCredential.compat (some p)) =
      (match compatCheck cfg now p with
       | .ok q => .ok q
       | .error _ => .error ⟨"Invalid custom Google token", 401⟩) := rfl

/-! ### Claim theorems -/

/-- C1 counterexample: a compatibility token whose `exp` equals the current
time is accepted by `verifyCustomGoogleToken`, contradicting the claim that
tokens with `exp ≤ now` (boundary inclusive) fail as expired. -/
theorem expiry_boundary_counterexample :
    verifyCustomGoogleToken ⟨"client-id"⟩ 100
      (RawCredential.compat (some { aud := some "client-id", exp := some 100 })) =
    .ok { aud := some "client-id", exp := some 100 } := rfl

/-- C1 (amended): `verifyCustomGoogleToken` rejects a compatibility token on
expiry only when the payload's `exp` is truthy (present and nonzero) and
strictly less than the current time; the failure surfaces as the rewrapped
generic `AuthorizationError`. -/
theorem verifyCustomGoogleToken_expired (cfg : Config) (now e : Int)
    (p : TokenPayload) (hexp : p.exp = some e) (hne : e ≠ 0) (hlt : e < now) :
    verifyCustomGoogleToken cfg now (RawCredential.compat (some p)) =
      .error ⟨"Invalid custom Google token", 401⟩ := by
  have hguard : expiredGuard p.exp now = true := by
    rw [hexp]
    simp [expiredGuard, hne, hlt]
  rw [verifyCustomGoogleToken_compat_some]
  unfold compatCheck
  rw [hguard]
  rfl

/-- Witness for C1's amended theorem at a concrete expired token. -/
theorem verifyCustomGoogleToken_expired_witness :
    verifyCustomGoogleToken ⟨"client-id"⟩ 10
      (RawCredential.compat (some { exp := some 5 })) =
    .error ⟨"Invalid custom Google token", 401⟩ :=
  verifyCustomGoogleToken_expired ⟨"client-id"⟩ 10 5 { exp := some 5 }
    rfl (by decide) (by decide)

/-- C10: a compatibility token whose decoded payload has no `exp` claim, or a
falsy `exp` of `0`, passes the expiry check entirely: for any current time it
is accepted provided its audience matches the configured client id. -/
theorem verifyCustomGoogleToken_falsy_exp (cfg : Config) (now : Int)
    (p : TokenPayload) (hexp : p.exp = none ∨ p.exp = some 0)
    (haud : p.aud = some cfg.googleClientId) :
    verifyCustomGoogleToken cfg now (RawCredential.compat (some p)) = .ok p := by
  have hguard : expiredGuard p.exp now = false := by
    rcases hexp with h | h <;> rw [h] <;> simp [expiredGuard]
  rw [verifyCustomGoogleToken_compat_some]
  unfold compatCheck
  rw [hguard]
  simp [haud]

/-- Witness for C10 at concrete never-expiring tokens (absent `exp` and
`exp = 0`), far in the future. -/
theorem verifyCustomGoogleToken_falsy_exp_witness :
    verifyCustomGoogleToken ⟨"client-id"⟩ 99999999999
      (RawCredential.compat (some { aud := some "client-id" })) =
    .ok { aud := some "client-id" } :=
  verifyCustomGoogleToken_falsy_exp ⟨"client-id"⟩ 99999999999
    { aud := some "client-id" } (Or.inl rfl) rfl

/-- C7: a compatibility token whose audience differs from the configured
client id is rejected with an `AuthorizationError` (the rewrapped generic
one), and any accepted payload carries exactly the configured client id as
audience. -/
theorem verifyCustomGoogleToken_audience (cfg : Config) (now : Int) :
    (∀ p : TokenPayload, p.aud ≠ some cfg.googleClientId →
      verifyCustomGoogleToken cfg now (RawCredential.compat (some p)) =
        .error ⟨"Invalid custom Google token", 401⟩) ∧
    (∀ tok q, verifyCustomGoogleToken cfg now tok = .ok q →
      q.aud = some cfg.googleClientId) := by
  constructor
  · intro p hne
    rw [verifyCustomGoogleToken_compat_some]
    rcases hok : compatCheck cfg now p with e | q
    · rfl
    · rcases compatCheck_ok hok with ⟨rfl, haud⟩
      exact absurd haud hne
  · intro tok q hok
    unfold verifyCustomGoogleToken at hok
    rcases htry : verifyCustomGoogleTokenTry cfg now tok with e | q'
    · rw [htry] at hok
      exact absurd hok (by simp)
    · rw [htry] at hok
      cases hok
      exact verifyCustomGoogleTokenTry_ok_aud htry

/-- Witness for C7 at a concrete audience-mismatched token. -/
theorem verifyCustomGoogleToken_audience_witness :
    verifyCustomGoogleToken ⟨"client-id"⟩ 0
      (RawCredential.compat (some { aud := some "someone-else" })) =
    .error ⟨"Invalid custom Google token", 401⟩ :=
  (verifyCustomGoogleToken_audience ⟨"client-id"⟩ 0).1
    { aud := some "someone-else" } (by decide)

/-- C5: round-trip — a compatibility token built by `createFederatedTokens`
from a claims map, decoded with `verifyCustomGoogleToken` before its one-hour
expiry and with the federation client id configured as at construction,
yields back the identical subject id, email, and federation profile fields. -/
theorem federated_token_roundtrip (saEnv : AuthServiceEnv) (cfg : Config)
    (now now' : Int) (gu : GoogleUser)
    (hcid : saEnv.googleClientId = some cfg.googleClientId)
    (hfresh : now' < now + 3600) :
    verifyCustomGoogleToken cfg now' (createFederatedTokens saEnv now gu).accessToken =
      .ok (federatedBasePayload saEnv now gu) ∧
    (federatedBasePayload saEnv now gu).sub = gu.userId ∧
    (federatedBasePayload saEnv now gu).email = gu.email ∧
    (federatedBasePayload saEnv now gu).name = gu.name ∧
    (federatedBasePayload saEnv now gu).given_name = gu.given_name ∧
    (federatedBasePayload saEnv now gu).family_name = gu.family_name ∧
    (federatedBasePayload saEnv now gu).picture = gu.picture := by
  refine ⟨?_, rfl, rfl, rfl, rfl, rfl, rfl⟩
  have hnotlt : ¬ (now + 3600 < now') := by omega
  show verifyCustomGoogleToken cfg now'
      (RawCredential.compat (some (federatedBasePayload saEnv now gu))) = _
  rw [verifyCustomGoogleToken_compat_some]
  have hguard : expiredGuard (federatedBasePayload saEnv now gu).exp now' = false := by
    simp [federatedBasePayload, expiredGuard, hnotlt]
  unfold compatCheck
  rw [hguard]
  have haud : (federatedBasePayload saEnv now gu).aud = some cfg.googleClientId := by
    simp [federatedBasePayload, hcid]
  simp [haud]

/-- Witness for C5 at a concrete claims map, construction time 0 and
decode time 10. -/
theorem federated_token_roundtrip_witness :
    verifyCustomGoogleToken ⟨"client-id"⟩ 10
      (createFederatedTokens ⟨some "client-id"⟩ 0
        { userId := some "user-1", email := some "u@example.com",
          name := some "User One", given_name := some "User",
          family_name := some "One", picture := some "http:pic" }).accessToken =
      .ok (federatedBasePayload ⟨some "client-id"⟩ 0
        { userId := some "user-1", email := some "u@example.com",
          name := some "User One", given_name := some "User",
          family_name := some "One", picture := some "http:pic" }) :=
  (federated_token_roundtrip ⟨some "client-id"⟩ ⟨"client-id"⟩ 0 10
    { userId := some "user-1", email := some "u@example.com",
      name := some "User One", given_name := some "User",
      family_name := some "One", picture := some "http:pic" }
    rfl (by decide)).1

/-- C3 counterexample: `createAuthContext` applied to claims with no subject
and no email still builds a context (with those fields absent) instead of
failing with a `MalformedClaimsError`. -/
theorem createAuthContext_missing_counterexample :
    (createAuthContext {} "google").userId = none ∧
    (createAuthContext {} "google").email = none := ⟨rfl, rfl⟩

/-- C3 (amended): `createAuthContext` always succeeds, copying the claims'
subject and email (possibly absent) into the context unvalidated; no
`MalformedClaimsError` exists in the code. -/
theorem createAuthContext_total (userInfo : TokenPayload) (t : String) :
    (createAuthContext userInfo t).userId = userInfo.sub ∧
    (createAuthContext userInfo t).email = userInfo.email ∧
    (createAuthContext userInfo t).tokenType = some t := by
  unfold createAuthContext
  split <;> exact ⟨rfl, rfl, rfl⟩

/-- C6: a raw bearer credential that the identity-provider verifier rejects,
that the Google ID-token verifier rejects, and that is not a valid
compatibility token, makes `verifyToken` fail with exactly the uniform
generic `AuthorizationError` — no other exception or internal detail reaches
the caller. -/
theorem verifyToken_uniform_error (cfg : Config) (C : Collaborators)
    (now : Int) (tok : RawCredential)
    (hcog : C.cognitoVerify tok = none)
    (hgid : C.googleIdVerify tok = none)
    (hcompat : ∀ p, verifyCustomGoogleToken cfg now tok ≠ .ok p) :
    verifyToken cfg C now tok = .error ⟨"Invalid token", 401⟩ := by
  unfold verifyToken verifyCognitoToken
  rw [hcog]
  unfold verifyGoogleToken
  match tok with
  | RawCredential.plain s =>
    rw [hgid]
  | RawCredential.compat po =>
    rcases hv : verifyCustomGoogleToken cfg now (RawCredential.compat po) with e | p
    · rfl
    · exact absurd hv (hcompat p)

/-- Witness for C6 at a concrete unrecognized string with collaborators that
reject everything. -/
theorem verifyToken_uniform_error_witness :
    verifyToken ⟨"client-id"⟩ ⟨fun _ => none, fun _ => none⟩ 0
      (RawCredential.plain "not-a-token") = .error ⟨"Invalid token", 401⟩ :=
  verifyToken_uniform_error ⟨"client-id"⟩ ⟨fun _ => none, fun _ => none⟩ 0
    (RawCredential.plain "not-a-token") rfl rfl
    (fun _ h => Except.noConfusion h)

/-- C2 counterexample: on a managed-platform event whose authorizer output is
an empty map, the middleware attaches a non-null identity context whose
`userId` and `email` are both absent — a partially-filled context reaches the
handler. -/
theorem authMiddleware_partial_context_counterexample :
    authMiddleware ⟨"client-id"⟩ ⟨fun _ => none, fun _ => none⟩ {} 0
        (some { requestContext := some { authorizer := some {} } }) {} =
      .ok (some { userId := none, email := none }) := rfl

/-- C2 (amended): only the trusted-header fallback guarantees a fully-present
context — whenever `createAuthContextFromHeaders` returns a context, its
`userId`, `email` and `tokenType` are present and non-empty; the
authorizer-output and token-verification paths copy fields unchecked. -/
theorem createAuthContextFromHeaders_complete (h : List (String × String))
    (ctx : AuthContext) (hc : createAuthContextFromHeaders h = some ctx) :
    truthyStr ctx.userId = true ∧ truthyStr ctx.email = true ∧
    truthyStr ctx.tokenType = true := by
  unfold createAuthContextFromHeaders at hc
  dsimp only at hc
  split at hc
  · exact absurd hc (by simp)
  · rename_i hguard
    simp only [Bool.or_eq_true, Bool.not_eq_true', not_or, Bool.not_eq_false] at hguard
    split at hc <;> cases hc <;>
      exact ⟨hguard.1.1, hguard.1.2, hguard.2⟩

/-- Witness for C2's amended theorem at a concrete trusted header map. -/
theorem createAuthContextFromHeaders_complete_witness :
    truthyStr (some "user-1") = true ∧ truthyStr (some "u@example.com") = true ∧
    truthyStr (some "google") = true :=
  createAuthContextFromHeaders_complete
    [("x-auth-user-id", "user-1"), ("x-auth-email", "u@example.com"),
     ("x-auth-token-type", "google")]
    { userId := some "user-1", email := some "u@example.com",
      tokenType := some "google", emailVerified := false,
      name := some "", givenName := some "", familyName := some "",
      picture := some "" }
    rfl

/-- An event selected by the probing loop classifies as AWS. -/
theorem pickAwsEvent_isAWS {penv : ProcEnv} {e : LambdaEvent} :
    ∀ {l : List (Option LambdaEvent)}, pickAwsEvent penv l = some e →
    isAWSEnvironment penv (some e) = true := by
  intro l
  induction l with
  | nil => intro h; exact absurd h (by simp [pickAwsEvent])
  | cons hd tl ih =>
    intro h
    match hd with
    | none => exact ih (by simpa [pickAwsEvent] using h)
    | some e' =>
      unfold pickAwsEvent at h
      split at h
      · cases h; assumption
      · exact ih h

/-- C4: on a managed-platform request (an AWS event was found), if the event
carries an upstream authorizer output the middleware builds the context
directly from it — for every collaborator behaviour, clock and configuration,
i.e. without consulting the Token Verifier — and if the event carries no
authorizer output it falls back to the trusted forwarded headers. -/
theorem authMiddleware_aws_authorizer (cfg : Config) (C : Collaborators)
    (penv : ProcEnv) (now : Int) (glob : Option LambdaEvent)
    (req : FastifyRequest) (e : LambdaEvent)
    (he : extractLambdaEvent penv req glob = some e) :
    (∀ a, e.requestContext.bind (fun rc => rc.authorizer) = some a →
       authMiddleware cfg C penv now glob req =
         .ok (some (authContextFromAuthorizer a))) ∧
    (e.requestContext.bind (fun rc => rc.authorizer) = none →
       authMiddleware cfg C penv now glob req =
         .ok (createAuthContextFromHeaders req.headers.xauth)) := by
  have hAWS : isAWSEnvironment penv (some e) = true := by
    unfold extractLambdaEvent at he
    exact pickAwsEvent_isAWS he
  constructor
  · intro a hauth
    unfold authMiddleware
    dsimp only
    rw [he]
    unfold extractAWSEventContext
    rw [hAWS]
    dsimp only
    rw [hauth]
    rfl
  · intro hauth
    unfold authMiddleware
    dsimp only
    rw [he]
    unfold extractAWSEventContext
    rw [hAWS]
    dsimp only
    rw [hauth]
    rfl

/-- Witness for C4 at two concrete managed-platform events: one with an
authorizer output (reused directly) and one without (header fallback). -/
theorem authMiddleware_aws_authorizer_witness :
    authMiddleware ⟨"client-id"⟩ rejectAll {} 0 (some sampleAwsEvent) {} =
      .ok (some (authContextFromAuthorizer sampleAuthorizer)) ∧
    authMiddleware ⟨"client-id"⟩ rejectAll {} 0 (some sampleAwsEventNoAuth) {} =
      .ok (createAuthContextFromHeaders ({} : FastifyRequest).headers.xauth) :=
  ⟨(authMiddleware_aws_authorizer ⟨"client-id"⟩ rejectAll {} 0
      (some sampleAwsEvent) {} sampleAwsEvent rfl).1 sampleAuthorizer rfl,
   (authMiddleware_aws_authorizer ⟨"client-id"⟩ rejectAll {} 0
      (some sampleAwsEventNoAuth) {} sampleAwsEventNoAuth rfl).2 rfl⟩

/-- C8: in the standalone environment the middleware never throws, attempts
the `Authorization` header first (attaching its context on success without
consulting the cookie), falls back to the `access_token` cookie only when the
header is absent or its verification failed, and attaches no context when
both sources are exhausted; every verification failure is swallowed. -/
theorem authMiddleware_standalone (cfg : Config) (C : Collaborators)
    (penv : ProcEnv) (now : Int) (glob : Option LambdaEvent)
    (req : FastifyRequest)
    (hlocal : isAWSEnvironment penv (extractLambdaEvent penv req glob) = false) :
    (∃ o, authMiddleware cfg C penv now glob req = .ok o) ∧
    (∀ ctx,
       hvTruthyO (jsOrHV req.headers.authorization req.headers.authorizationCap) = true →
       authorizeRequest cfg C now
         (jsOrHV req.headers.authorization req.headers.authorizationCap) = .ok ctx →
       authMiddleware cfg C penv now glob req = .ok (some ctx)) ∧
    (∀ v ctx,
       (hvTruthyO (jsOrHV req.headers.authorization req.headers.authorizationCap) = false ∨
        (∃ err, authorizeRequest cfg C now
          (jsOrHV req.headers.authorization req.headers.authorizationCap) = .error err)) →
       req.cookies.accessToken = some v →
       (v == [RawCredential.plain ""]) = false →
       authorizeRequest cfg C now (some (RawCredential.plain "Bearer" :: v)) = .ok ctx →
       authMiddleware cfg C penv now glob req = .ok (some ctx)) ∧
    ((hvTruthyO (jsOrHV req.headers.authorization req.headers.authorizationCap) = false ∨
      (∃ err, authorizeRequest cfg C now
        (jsOrHV req.headers.authorization req.headers.authorizationCap) = .error err)) →
     (hvTruthyO req.cookies.accessToken = false ∨
      (∃ v err, req.cookies.accessToken = some v ∧
        authorizeRequest cfg C now (some (RawCredential.plain "Bearer" :: v)) = .error err)) →
     authMiddleware cfg C penv now glob req = .ok none) := by
  have hext : extractAWSEventContext penv (extractLambdaEvent penv req glob) = .ok none := by
    unfold extractAWSEventContext
    rw [hlocal]
    rfl
  have hvhOfFail :
      (hvTruthyO (jsOrHV req.headers.authorization req.headers.authorizationCap) = false ∨
       (∃ err, authorizeRequest cfg C now
         (jsOrHV req.headers.authorization req.headers.authorizationCap) = .error err)) →
      (if hvTruthyO (jsOrHV req.headers.authorization req.headers.authorizationCap) = true then
        match authorizeRequest cfg C now
          (jsOrHV req.headers.authorization req.headers.authorizationCap) with
        | .ok ctx => some ctx
        | .error _ => none
        else none) = none := by
    intro hfail
    rcases hfail with hF | ⟨err, herr⟩
    · rw [hF]; rfl
    · rw [herr]
      split <;> rfl
  refine ⟨?_, ?_, ?_, ?_⟩
  · unfold authMiddleware
    dsimp only
    rw [hext]
    dsimp only
    split
    · exact ⟨_, rfl⟩
    · split
      · split
        · split
          · exact ⟨_, rfl⟩
          · exact ⟨_, rfl⟩
        · exact ⟨_, rfl⟩
      · exact ⟨_, rfl⟩
  · intro ctx htr hok
    unfold authMiddleware
    dsimp only
    rw [hext]
    dsimp only
    rw [htr, hok]
    rfl
  · intro v ctx hfail hv hne hok
    unfold authMiddleware
    dsimp only
    rw [hext]
    dsimp only
    rw [hvhOfFail hfail]
    simp only [hv]
    simp only [hne, hok, Bool.not_false, Option.some.injEq]
    rfl
  · intro hfail hcfail
    unfold authMiddleware
    dsimp only
    rw [hext]
    dsimp only
    rw [hvhOfFail hfail]
    rcases hck : req.cookies.accessToken with _ | v
    · rfl
    · simp only [hck]
      rcases hcfail with hF | ⟨v', err, hv', herr⟩
      · rw [hck] at hF
        unfold hvTruthyO at hF
        simp only [Bool.not_eq_true'] at hF
        simp [hF]
      · rw [hck] at hv'
        cases hv'
        rcases hbe : (v == [RawCredential.plain ""]) with _ | _
        · simp [hbe, herr]
        · simp [hbe]

/-- Witness for C8 at a concrete standalone request whose header credential
verifies (via the Cognito collaborator). -/
theorem authMiddleware_standalone_witness :
    authMiddleware ⟨"client-id"⟩ cognitoAccepts {} 0 none sampleBearerRequest =
      .ok (some (createAuthContext samplePayload "cognito")) :=
  (authMiddleware_standalone ⟨"client-id"⟩ cognitoAccepts {} 0 none
    sampleBearerRequest rfl).2.1
    (createAuthContext samplePayload "cognito") (by rfl) (by rfl)

/-- C9: the platform authorizer handler is a total binary decision — on a
successful `authorizeRequest` it returns the Allow policy carrying the
context coerced to a flat string map, on any failure of `authorizeRequest` it
returns the Deny policy, any error whether a recognized `AuthorizationError`
or an unrecognized exception maps to Deny, and every possible outcome is a
single-statement policy whose effect is Allow or Deny. -/
theorem handler_binary_decision (cfg : Config) (C : Collaborators) (now : Int)
    (ev : AuthorizerEvent) :
    (∀ ctx, authorizeRequest cfg C now ev.authorizationToken = .ok ctx →
       handler cfg C now ev =
         generatePolicy ctx.userId "Allow" ev.methodArn
           (some (stringAuthContext ctx))) ∧
    (∀ err, authorizeRequest cfg C now ev.authorizationToken = .error err →
       handler cfg C now ev =
         generatePolicy (some "user") "Deny" ev.methodArn none) ∧
    (∀ jerr arn, handlerCatch (.error jerr) arn =
       generatePolicy (some "user") "Deny" arn none) ∧
    (∀ outcome arn, ∃ eff, (eff = "Allow" ∨ eff = "Deny") ∧
       (handlerCatch outcome arn).policyDocument.statement =
         [{ action := "execute-api:Invoke", effect := eff, resource := arn }]) := by
  refine ⟨?_, ?_, ?_, ?_⟩
  · intro ctx hok
    unfold handler
    rw [hok]
    rfl
  · intro err herr
    unfold handler
    rw [herr]
    rfl
  · intro jerr arn
    cases jerr <;> rfl
  · intro outcome arn
    match outcome with
    | .ok ctx => exact ⟨"Allow", Or.inl rfl, rfl⟩
    | .error (JsError.authorization _) => exact ⟨"Deny", Or.inr rfl, rfl⟩
    | .error (JsError.other _) => exact ⟨"Deny", Or.inr rfl, rfl⟩

/-- Witness for C9 at a concrete event with no authorization token
(`authorizeRequest` fails with the missing-header error). -/
theorem handler_binary_decision_witness :
    handler ⟨"client-id"⟩ ⟨fun _ => none, fun _ => none⟩ 0
      { authorizationToken := none, methodArn := "arn:resource" } =
      generatePolicy (some "user") "Deny" "arn:resource" none :=
  (handler_binary_decision ⟨"client-id"⟩ ⟨fun _ => none, fun _ => none⟩ 0
    { authorizationToken := none, methodArn := "arn:resource" }).2.1
    ⟨"Missing Authorization header", 401⟩ rfl

end AuthPoc
